import Mathlib

/-!
Shallow embedding of the CallMoney blueprint (src/src/lib.rs) and proofs
about its operations.

The source is a Scrypto component.  Its `Decimal` type is an 18-decimal
fixed-point number backed by a signed integer; we embed it as an unbounded
`Int` of atto-units (overflow is not at issue in any claim).  Multiplication
and division on Scrypto decimals perform the integer product/quotient and
truncate toward zero, which is `Int.tdiv`.

Each Rust method mutating `&mut self` becomes a function from the contract
state to a new state.  A method whose `assert!` can fire becomes a function
into `Except (String × CallMoney) _`, where the error carries the panic
message together with the state at the moment of the panic, so that
atomicity of failing operations is expressible.  `update_accrued_interest`
and `repay` contain no `assert!` and are total.

`transaction_history` entries are `format!` strings in the source; we embed
them as a structured `LogEntry` carrying the same numeric payloads, one
constructor per format string.
-/

/-- Fixed-point decimal of the source: an integer count of 10⁻¹⁸ units. -/
structure Decimal where
  attos : Int
deriving DecidableEq, Repr

/-- The fixed-point scaling factor 10¹⁸. -/
def Decimal.SCALE : Int := 10 ^ 18

/-- Decimal::ZERO. -/
def Decimal.ZERO : Decimal := ⟨0⟩

/-- Decimal::ONE. -/
def Decimal.ONE : Decimal := ⟨Decimal.SCALE⟩

/-- Decimal::from on an integer (the source applies it to i128 day counts and 365). -/
def Decimal.ofInt (n : Int) : Decimal := ⟨n * Decimal.SCALE⟩

/-- Decimal addition (exact in fixed point). -/
def Decimal.add (a b : Decimal) : Decimal := ⟨a.attos + b.attos⟩

/-- Decimal subtraction (exact in fixed point). -/
def Decimal.sub (a b : Decimal) : Decimal := ⟨a.attos - b.attos⟩

/-- Decimal multiplication: integer product scaled back down, truncating toward zero. -/
def Decimal.mul (a b : Decimal) : Decimal := ⟨(a.attos * b.attos).tdiv Decimal.SCALE⟩

/-- Decimal division: scaled-up dividend, truncating toward zero. -/
def Decimal.div (a b : Decimal) : Decimal := ⟨(a.attos * Decimal.SCALE).tdiv b.attos⟩

/-- Structured form of the `format!` strings pushed onto `transaction_history`. -/
inductive LogEntry where
  | contractInitiated : LogEntry
  | interestUpdated (amount : Decimal) : LogEntry
  | loanFullyRepaid (excess : Decimal) : LogEntry
  | partRepayment (amount : Decimal) : LogEntry
  | moneyCalled (due_date : Int) : LogEntry
  | penaltyApplied (amount : Decimal) : LogEntry
  | collateralAdded : LogEntry
  | collateralRemoved : LogEntry
deriving DecidableEq, Repr

/-- State of a CallMoney contract, mirroring the struct of the source.
`ResourceAddress` is opaque to every claim; it is embedded as `Nat`. -/
structure CallMoney where
  lender : Nat
  borrower : Nat
  principal : Decimal
  interest_rate : Decimal
  accrued_interest : Decimal
  start_date : Int
  last_interest_calculation_date : Int
  notice_period : Int
  grace_period : Int
  status : String
  penalty_rate : Decimal
  collateral : Option Nat
  transaction_history : List LogEntry
deriving DecidableEq, Repr

/-- instantiate_call_money: validates the parameters with `assert!` and on
success returns the fresh contract state.  A failed assertion panics before
any contract exists, so the error carries only the message. -/
def instantiate_call_money (lender borrower : Nat) (principal interest_rate : Decimal)
    (start_date notice_period grace_period : Int) (penalty_rate : Decimal) :
    Except String CallMoney :=
  if ¬ (Decimal.ZERO.attos < principal.attos) then
    Except.error "Principal must be positive"
  else if ¬ (Decimal.ZERO.attos < interest_rate.attos ∧ interest_rate.attos < Decimal.ONE.attos) then
    Except.error "Interest rate must be between 0 and 1"
  else if ¬ (0 ≤ notice_period) then
    Except.error "Notice period cannot be negative"
  else if ¬ (0 ≤ grace_period) then
    Except.error "Grace period cannot be negative"
  else if ¬ (Decimal.ZERO.attos ≤ penalty_rate.attos) then
    Except.error "Penalty rate cannot be negative"
  else
    Except.ok
      { lender := lender
        borrower := borrower
        principal := principal
        interest_rate := interest_rate
        start_date := start_date
        accrued_interest := Decimal.ZERO
        last_interest_calculation_date := start_date
        status := "Active"
        notice_period := notice_period
        grace_period := grace_period
        penalty_rate := penalty_rate
        collateral := none
        transaction_history := [LogEntry.contractInitiated] }

/-- update_accrued_interest: `days` is the raw timestamp difference
`current_date - last_interest_calculation_date` exactly as in the source
(the source casts it to i128 without dividing by 86400), the interest is
`principal * interest_rate * Decimal::from(days) / Decimal::from(365)`,
and one history entry is pushed. -/
def update_accrued_interest (s : CallMoney) (current_date : Int) : CallMoney :=
  let days : Int := current_date - s.last_interest_calculation_date
  let interest : Decimal :=
    Decimal.div (Decimal.mul (Decimal.mul s.principal s.interest_rate) (Decimal.ofInt days))
      (Decimal.ofInt 365)
  { s with
    accrued_interest := Decimal.add s.accrued_interest interest
    last_interest_calculation_date := current_date
    transaction_history := s.transaction_history ++ [LogEntry.interestUpdated interest] }

/-- repay: brings accrual current, then either settles the loan in full
(returning the excess) or applies a partial payment, interest first.
The source has no `assert!` here, so the function is total. -/
def repay (s : CallMoney) (amount : Decimal) (current_date : Int) : Decimal × CallMoney :=
  let s1 := update_accrued_interest s current_date
  let total_due := Decimal.add s1.principal s1.accrued_interest
  if total_due.attos ≤ amount.attos then
    let excess := Decimal.sub amount total_due
    (excess,
      { s1 with
        status := "Repaid"
        principal := Decimal.ZERO
        accrued_interest := Decimal.ZERO
        transaction_history := s1.transaction_history ++ [LogEntry.loanFullyRepaid excess] })
  else
    let s2 := { s1 with accrued_interest := Decimal.sub s1.accrued_interest amount }
    let s3 :=
      if s2.accrued_interest.attos < 0 then
        { s2 with
          principal := Decimal.add s2.principal s2.accrued_interest
          accrued_interest := Decimal.ZERO }
      else s2
    (Decimal.ZERO,
      { s3 with transaction_history := s3.transaction_history ++ [LogEntry.partRepayment amount] })

/-- call_money: asserts `status == "Active"` before any mutation, then
updates accrual, marks the contract Called, logs, and returns the total
due together with the due date. -/
def call_money (s : CallMoney) (current_date : Int) :
    Except (String × CallMoney) ((Decimal × Int) × CallMoney) :=
  if s.status = "Active" then
    let s1 := update_accrued_interest s current_date
    let total_due := Decimal.add s1.principal s1.accrued_interest
    let s2 := { s1 with status := "Called" }
    let due_date := current_date + s2.notice_period
    Except.ok ((total_due, due_date),
      { s2 with transaction_history := s2.transaction_history ++ [LogEntry.moneyCalled due_date] })
  else
    Except.error ("Contract is not active", s)

/-- apply_penalty: asserts `status == "Called"`, then re-invokes
`call_money` (whose own assertion requires `status == "Active"`); an inner
panic propagates.  Past the grace period a penalty is accrued and logged. -/
def apply_penalty (s : CallMoney) (current_date : Int) :
    Except (String × CallMoney) CallMoney :=
  if s.status = "Called" then
    match call_money s current_date with
    | Except.error e => Except.error e
    | Except.ok ((_, due_date), s1) =>
      if due_date + s1.grace_period < current_date then
        let days_overdue : Int := current_date - (due_date + s1.grace_period)
        let penalty : Decimal :=
          Decimal.div
            (Decimal.mul (Decimal.mul s1.principal s1.penalty_rate) (Decimal.ofInt days_overdue))
            (Decimal.ofInt 365)
        let s2 := { s1 with accrued_interest := Decimal.add s1.accrued_interest penalty }
        Except.ok
          { s2 with transaction_history := s2.transaction_history ++ [LogEntry.penaltyApplied penalty] }
      else
        Except.ok s1
  else
    Except.error ("Contract has not been called", s)

/-- add_collateral: asserts no collateral is present, then records it and logs. -/
def add_collateral (s : CallMoney) (c : Nat) : Except (String × CallMoney) CallMoney :=
  if s.collateral.isNone then
    Except.ok
      { s with
        collateral := some c
        transaction_history := s.transaction_history ++ [LogEntry.collateralAdded] }
  else
    Except.error ("Collateral already exists", s)

/-- remove_collateral: asserts `principal == Decimal::ZERO`, takes the
collateral, and logs only when one was actually present. -/
def remove_collateral (s : CallMoney) :
    Except (String × CallMoney) (Option Nat × CallMoney) :=
  if s.principal.attos = 0 then
    let c := s.collateral
    let s1 := { s with collateral := none }
    match c with
    | some _ =>
      Except.ok (c, { s1 with transaction_history := s1.transaction_history ++ [LogEntry.collateralRemoved] })
    | none => Except.ok (none, s1)
  else
    Except.error ("Loan must be fully repaid to remove collateral", s)

/-- get_details: read-only projection, as in the source. -/
def get_details (s : CallMoney) :
    Nat × Nat × Decimal × Decimal × Int × Decimal × String × Option Nat :=
  (s.lender, s.borrower, s.principal, s.interest_rate, s.start_date,
   s.accrued_interest, s.status, s.collateral)

/-- get_transaction_history: read-only copy of the log. -/
def get_transaction_history (s : CallMoney) : List LogEntry :=
  s.transaction_history

instance {ε α : Type} [DecidableEq ε] [DecidableEq α] : DecidableEq (Except ε α) := fun a b =>
  match a, b with
  | Except.ok x, Except.ok y =>
    if h : x = y then isTrue (by rw [h]) else isFalse (by intro he; cases he; exact h rfl)
  | Except.error x, Except.error y =>
    if h : x = y then isTrue (by rw [h]) else isFalse (by intro he; cases he; exact h rfl)
  | Except.ok _, Except.error _ => isFalse (by intro he; cases he)
  | Except.error _, Except.ok _ => isFalse (by intro he; cases he)

/-- The contract of the spec's concrete scenario: principal 1000,
interest_rate 0.05, start_date 0, notice_period 86400, grace_period 0,
penalty_rate 0.1.  This is exactly the state `instantiate_call_money`
returns for those parameters. -/
def c1state : CallMoney :=
  { lender := 0
    borrower := 1
    principal := ⟨1000 * Decimal.SCALE⟩
    interest_rate := ⟨5 * 10 ^ 16⟩
    accrued_interest := Decimal.ZERO
    start_date := 0
    last_interest_calculation_date := 0
    notice_period := 86400
    grace_period := 0
    status := "Active"
    penalty_rate := ⟨10 ^ 17⟩
    collateral := none
    transaction_history := [LogEntry.contractInitiated] }

/-- A freshly instantiated contract whose start_date is 100, used to
exercise `update_accrued_interest` with an earlier current_date. -/
def c8state : CallMoney :=
  { c1state with
    start_date := 100
    last_interest_calculation_date := 100
    notice_period := 0 }

/-- A contract state with negative accrued interest (reachable, e.g. by
accruing with a current_date earlier than the stored calculation date). -/
def cNeg : CallMoney :=
  { c1state with
    principal := ⟨100 * Decimal.SCALE⟩
    accrued_interest := ⟨-10 * Decimal.SCALE⟩ }

/-- A state on which every guarded operation fails its assertion:
status is not Active and not Called, collateral is present, principal
is nonzero. -/
def sErr : CallMoney :=
  { c1state with
    status := "Repaid"
    collateral := some 5 }

/-- The state produced by a successful `call_money c1state 0`. -/
def cCalled : CallMoney :=
  { c1state with
    status := "Called"
    transaction_history :=
      [LogEntry.contractInitiated, LogEntry.interestUpdated ⟨0⟩, LogEntry.moneyCalled 86400] }

/-- The interest amount computed by `update_accrued_interest` for state `s`
at `current_date`: principal * interest_rate * Decimal::from(days) /
Decimal::from(365), days being the raw timestamp difference. -/
def interest_of (s : CallMoney) (current_date : Int) : Decimal :=
  Decimal.div
    (Decimal.mul (Decimal.mul s.principal s.interest_rate)
      (Decimal.ofInt (current_date - s.last_interest_calculation_date)))
    (Decimal.ofInt 365)

/-- Nonnegativity facts preserved by every operation (interest_rate is
carried because the accrual step needs it). -/
def GoodAmounts (s : CallMoney) : Prop :=
  0 ≤ s.principal.attos ∧ 0 ≤ s.accrued_interest.attos ∧ 0 ≤ s.interest_rate.attos

/-- States reachable from a successful `instantiate_call_money` by
successfully completed operations, where every accrual-triggering
operation is invoked with a current_date no earlier than the stored
`last_interest_calculation_date`. -/
inductive Reaches : CallMoney → Prop where
  | init (lender borrower : Nat) (principal interest_rate : Decimal)
      (start_date notice_period grace_period : Int) (penalty_rate : Decimal) (s : CallMoney) :
      instantiate_call_money lender borrower principal interest_rate start_date
        notice_period grace_period penalty_rate = Except.ok s →
      Reaches s
  | update (s : CallMoney) (d : Int) :
      Reaches s → s.last_interest_calculation_date ≤ d →
      Reaches (update_accrued_interest s d)
  | repayStep (s : CallMoney) (a : Decimal) (d : Int) :
      Reaches s → s.last_interest_calculation_date ≤ d →
      Reaches (repay s a d).2
  | callStep (s : CallMoney) (d : Int) (r : Decimal × Int) (s' : CallMoney) :
      Reaches s → s.last_interest_calculation_date ≤ d →
      call_money s d = Except.ok (r, s') → Reaches s'
  | penaltyStep (s : CallMoney) (d : Int) (s' : CallMoney) :
      Reaches s → apply_penalty s d = Except.ok s' → Reaches s'
  | addStep (s : CallMoney) (c : Nat) (s' : CallMoney) :
      Reaches s → add_collateral s c = Except.ok s' → Reaches s'
  | removeStep (s : CallMoney) (r : Option Nat) (s' : CallMoney) :
      Reaches s → remove_collateral s = Except.ok (r, s') → Reaches s'

/-- The accrual increment is nonnegative whenever principal, rate and the
elapsed time are nonnegative: every truncating division in the Decimal
chain stays nonnegative. -/
lemma interest_nonneg (p r : Decimal) (days : Int)
    (hp : 0 ≤ p.attos) (hr : 0 ≤ r.attos) (hd : 0 ≤ days) :
    0 ≤ (Decimal.div (Decimal.mul (Decimal.mul p r) (Decimal.ofInt days)) (Decimal.ofInt 365)).attos := by
  have hS : (0:Int) ≤ Decimal.SCALE := by unfold Decimal.SCALE; positivity
  have h1 : 0 ≤ (Decimal.mul p r).attos :=
    Int.tdiv_nonneg (mul_nonneg hp hr) hS
  have h2 : 0 ≤ (Decimal.mul (Decimal.mul p r) (Decimal.ofInt days)).attos :=
    Int.tdiv_nonneg (mul_nonneg h1 (mul_nonneg hd hS)) hS
  exact Int.tdiv_nonneg (mul_nonneg h2 hS) (by unfold Decimal.ofInt Decimal.SCALE; positivity)

/-- apply_penalty always panics: either its own assertion on `status` fires,
or the inner `call_money` assertion does, and in both cases the error
carries the unmodified input state. -/
lemma apply_penalty_eq_error (s : CallMoney) (d : Int) :
    apply_penalty s d =
      Except.error
        (if s.status = "Called" then ("Contract is not active", s)
         else ("Contract has not been called", s)) := by
  unfold apply_penalty call_money
  by_cases h : s.status = "Called"
  · simp [h]
  · simp [h]

/-- C2: for every contract state and timestamp, `update_accrued_interest`
adds exactly principal × interest_rate × elapsed / 365 (elapsed being the raw
stored-timestamp difference, possibly negative, under the code's Decimal
arithmetic) to accrued_interest, sets last_interest_calculation_date to the
given date, appends exactly one log entry recording the computed interest,
and changes no other field. -/
theorem C2_update_accrual_exact (s : CallMoney) (current_date : Int) :
    (update_accrued_interest s current_date).accrued_interest =
      Decimal.add s.accrued_interest
        (Decimal.div
          (Decimal.mul (Decimal.mul s.principal s.interest_rate)
            (Decimal.ofInt (current_date - s.last_interest_calculation_date)))
          (Decimal.ofInt 365)) ∧
    (update_accrued_interest s current_date).last_interest_calculation_date = current_date ∧
    (update_accrued_interest s current_date).transaction_history =
      s.transaction_history ++
        [LogEntry.interestUpdated
          (Decimal.div
            (Decimal.mul (Decimal.mul s.principal s.interest_rate)
              (Decimal.ofInt (current_date - s.last_interest_calculation_date)))
            (Decimal.ofInt 365))] ∧
    (update_accrued_interest s current_date).principal = s.principal ∧
    (update_accrued_interest s current_date).interest_rate = s.interest_rate ∧
    (update_accrued_interest s current_date).lender = s.lender ∧
    (update_accrued_interest s current_date).borrower = s.borrower ∧
    (update_accrued_interest s current_date).start_date = s.start_date ∧
    (update_accrued_interest s current_date).notice_period = s.notice_period ∧
    (update_accrued_interest s current_date).grace_period = s.grace_period ∧
    (update_accrued_interest s current_date).status = s.status ∧
    (update_accrued_interest s current_date).penalty_rate = s.penalty_rate ∧
    (update_accrued_interest s current_date).collateral = s.collateral :=
  ⟨rfl, rfl, rfl, rfl, rfl, rfl, rfl, rfl, rfl, rfl, rfl, rfl, rfl⟩

/-- repay in the full-settlement branch, as one equation. -/
lemma repay_eq_full (s : CallMoney) (amount : Decimal) (d : Int)
    (h : (Decimal.add (update_accrued_interest s d).principal
        (update_accrued_interest s d).accrued_interest).attos ≤ amount.attos) :
    repay s amount d =
      (Decimal.sub amount
          (Decimal.add (update_accrued_interest s d).principal
            (update_accrued_interest s d).accrued_interest),
        { update_accrued_interest s d with
          status := "Repaid"
          principal := Decimal.ZERO
          accrued_interest := Decimal.ZERO
          transaction_history :=
            (update_accrued_interest s d).transaction_history ++
              [LogEntry.loanFullyRepaid
                (Decimal.sub amount
                  (Decimal.add (update_accrued_interest s d).principal
                    (update_accrued_interest s d).accrued_interest))] }) := by
  simp only [repay]
  rw [if_pos h]

/-- repay in the partial-payment branch, as one equation with the clamp
made explicit. -/
lemma repay_eq_part (s : CallMoney) (amount : Decimal) (d : Int)
    (h : ¬ (Decimal.add (update_accrued_interest s d).principal
        (update_accrued_interest s d).accrued_interest).attos ≤ amount.attos) :
    repay s amount d =
      (Decimal.ZERO,
        if (Decimal.sub (update_accrued_interest s d).accrued_interest amount).attos < 0 then
          { update_accrued_interest s d with
            principal :=
              Decimal.add (update_accrued_interest s d).principal
                (Decimal.sub (update_accrued_interest s d).accrued_interest amount)
            accrued_interest := Decimal.ZERO
            transaction_history :=
              (update_accrued_interest s d).transaction_history ++
                [LogEntry.partRepayment amount] }
        else
          { update_accrued_interest s d with
            accrued_interest := Decimal.sub (update_accrued_interest s d).accrued_interest amount
            transaction_history :=
              (update_accrued_interest s d).transaction_history ++
                [LogEntry.partRepayment amount] }) := by
  simp only [repay]
  rw [if_neg h]
  by_cases h2 : (Decimal.sub (update_accrued_interest s d).accrued_interest amount).attos < 0
  · rw [if_pos h2, if_pos h2]
  · rw [if_neg h2, if_neg h2]

/-- C3: `apply_penalty` aborts on every contract state: with status other
than Called its own assertion fires ("Contract has not been called"), and
with status Called the internal `call_money` assertion fires ("Contract is
not active"), so the penalty computation is never reached. -/
theorem C3_apply_penalty_always_aborts (s : CallMoney) (current_date : Int) :
    apply_penalty s current_date =
      Except.error
        (if s.status = "Called" then ("Contract is not active", s)
         else ("Contract has not been called", s)) :=
  apply_penalty_eq_error s current_date

/-- Accrual preserves the nonnegativity facts when the clock does not run
backwards. -/
lemma update_good (s : CallMoney) (d : Int) (hs : GoodAmounts s)
    (hd : s.last_interest_calculation_date ≤ d) :
    GoodAmounts (update_accrued_interest s d) := by
  obtain ⟨hp, ha, hr⟩ := hs
  refine ⟨hp, ?_, hr⟩
  show 0 ≤ s.accrued_interest.attos +
      (Decimal.div
        (Decimal.mul (Decimal.mul s.principal s.interest_rate)
          (Decimal.ofInt (d - s.last_interest_calculation_date)))
        (Decimal.ofInt 365)).attos
  have hin := interest_nonneg s.principal s.interest_rate
    (d - s.last_interest_calculation_date) hp hr (by omega)
  omega

/-- repay preserves the nonnegativity facts when the clock does not run
backwards. -/
lemma repay_good (s : CallMoney) (a : Decimal) (d : Int) (hs : GoodAmounts s)
    (hd : s.last_interest_calculation_date ≤ d) :
    GoodAmounts (repay s a d).2 := by
  obtain ⟨hp, ha, hr⟩ := update_good s d hs hd
  by_cases hc : (Decimal.add (update_accrued_interest s d).principal
      (update_accrued_interest s d).accrued_interest).attos ≤ a.attos
  · rw [repay_eq_full s a d hc]
    exact ⟨le_refl 0, le_refl 0, hr⟩
  · rw [repay_eq_part s a d hc]
    have hc' : ¬ ((update_accrued_interest s d).principal.attos +
        (update_accrued_interest s d).accrued_interest.attos ≤ a.attos) := hc
    by_cases h2 : (Decimal.sub (update_accrued_interest s d).accrued_interest a).attos < 0
    · rw [if_pos h2]
      have h2' : (update_accrued_interest s d).accrued_interest.attos - a.attos < 0 := h2
      refine ⟨?_, le_refl 0, hr⟩
      show 0 ≤ (update_accrued_interest s d).principal.attos +
          ((update_accrued_interest s d).accrued_interest.attos - a.attos)
      omega
    · rw [if_neg h2]
      have h2' : ¬ ((update_accrued_interest s d).accrued_interest.attos - a.attos < 0) := h2
      refine ⟨hp, ?_, hr⟩
      show 0 ≤ (update_accrued_interest s d).accrued_interest.attos - a.attos
      omega

/-- A successful call_money preserves the nonnegativity facts when the
clock does not run backwards. -/
lemma call_good (s : CallMoney) (d : Int) (r : Decimal × Int) (s' : CallMoney)
    (hs : GoodAmounts s) (hd : s.last_interest_calculation_date ≤ d)
    (h : call_money s d = Except.ok (r, s')) : GoodAmounts s' := by
  obtain ⟨hp, ha, hr⟩ := update_good s d hs hd
  unfold call_money at h
  by_cases hA : s.status = "Active"
  · rw [if_pos hA] at h
    injection h with h1
    injection h1 with h2 h3
    subst h3
    exact ⟨hp, ha, hr⟩
  · rw [if_neg hA] at h
    cases h

/-- add_collateral cannot disturb the amounts. -/
lemma add_good (s : CallMoney) (c : Nat) (s' : CallMoney) (hs : GoodAmounts s)
    (h : add_collateral s c = Except.ok s') : GoodAmounts s' := by
  obtain ⟨hp, ha, hr⟩ := hs
  unfold add_collateral at h
  by_cases hN : s.collateral.isNone
  · rw [if_pos hN] at h
    injection h with h1
    subst h1
    exact ⟨hp, ha, hr⟩
  · rw [if_neg hN] at h
    cases h

/-- remove_collateral cannot disturb the amounts. -/
lemma remove_good (s : CallMoney) (r : Option Nat) (s' : CallMoney) (hs : GoodAmounts s)
    (h : remove_collateral s = Except.ok (r, s')) : GoodAmounts s' := by
  obtain ⟨hp, ha, hr⟩ := hs
  unfold remove_collateral at h
  by_cases hP : s.principal.attos = 0
  · rw [if_pos hP] at h
    cases hcol : s.collateral with
    | some v =>
      rw [hcol] at h
      injection h with h1
      injection h1 with h2 h3
      subst h3
      exact ⟨hp, ha, hr⟩
    | none =>
      rw [hcol] at h
      injection h with h1
      injection h1 with h2 h3
      subst h3
      exact ⟨hp, ha, hr⟩
  · rw [if_neg hP] at h
    cases h

/-- Every reachable state keeps the nonnegativity facts. -/
lemma reaches_good (s : CallMoney) (h : Reaches s) : GoodAmounts s := by
  induction h with
  | init lender borrower principal interest_rate start_date notice_period grace_period penalty_rate s h =>
    unfold instantiate_call_money at h
    split_ifs at h with h1 h2 h3 h4 h5
    injection h with h6
    subst h6
    push_neg at h1 h2
    exact ⟨le_of_lt h1, le_refl 0, le_of_lt h2.1⟩
  | update s d _ hd ih => exact update_good s d ih hd
  | repayStep s a d _ hd ih => exact repay_good s a d ih hd
  | callStep s d r s' _ hd hok ih => exact call_good s d r s' ih hd hok
  | penaltyStep s d s' _ hok ih =>
    rw [apply_penalty_eq_error s d] at hok
    cases hok
  | addStep s c s' _ hok ih => exact add_good s c s' ih hok
  | removeStep s r s' _ hok ih => exact remove_good s r s' ih hok

/-- C4: whenever the amount covers the post-accrual total due, `repay`
settles the loan: status Repaid, principal and accrued interest zeroed,
the exact excess amount − total_due returned, and the full-repayment entry
appended. -/
theorem C4_repay_full_settlement (s : CallMoney) (amount : Decimal) (d : Int)
    (h : (update_accrued_interest s d).principal.attos +
        (update_accrued_interest s d).accrued_interest.attos ≤ amount.attos) :
    (repay s amount d).1.attos =
      amount.attos -
        ((update_accrued_interest s d).principal.attos +
          (update_accrued_interest s d).accrued_interest.attos) ∧
    (repay s amount d).2.status = "Repaid" ∧
    (repay s amount d).2.principal = Decimal.ZERO ∧
    (repay s amount d).2.accrued_interest = Decimal.ZERO ∧
    (repay s amount d).2.transaction_history =
      (update_accrued_interest s d).transaction_history ++
        [LogEntry.loanFullyRepaid
          (Decimal.sub amount
            (Decimal.add (update_accrued_interest s d).principal
              (update_accrued_interest s d).accrued_interest))] := by
  rw [repay_eq_full s amount d h]
  exact ⟨rfl, rfl, rfl, rfl, rfl⟩

/-- C5: a nonnegative amount strictly below the post-accrual total due is a
partial payment: zero excess is returned, the outstanding balance drops by
exactly the amount, the payment is applied to interest first with any
remainder reducing principal, and accrued interest is never left
negative. -/
theorem C5_repay_partial_payment (s : CallMoney) (amount : Decimal) (d : Int)
    (hnn : 0 ≤ amount.attos)
    (h : amount.attos <
        (update_accrued_interest s d).principal.attos +
          (update_accrued_interest s d).accrued_interest.attos) :
    (repay s amount d).1 = Decimal.ZERO ∧
    (repay s amount d).2.principal.attos + (repay s amount d).2.accrued_interest.attos =
      (update_accrued_interest s d).principal.attos +
        (update_accrued_interest s d).accrued_interest.attos - amount.attos ∧
    (repay s amount d).2.accrued_interest.attos =
      max ((update_accrued_interest s d).accrued_interest.attos - amount.attos) 0 ∧
    (repay s amount d).2.principal.attos =
      (update_accrued_interest s d).principal.attos +
        min ((update_accrued_interest s d).accrued_interest.attos - amount.attos) 0 ∧
    0 ≤ (repay s amount d).2.accrued_interest.attos := by
  have hc : ¬ (Decimal.add (update_accrued_interest s d).principal
      (update_accrued_interest s d).accrued_interest).attos ≤ amount.attos := by
    show ¬ _ + _ ≤ _
    omega
  rw [repay_eq_part s amount d hc]
  by_cases h2 : (Decimal.sub (update_accrued_interest s d).accrued_interest amount).attos < 0
  · rw [if_pos h2]
    refine ⟨rfl, ?_, ?_, ?_, ?_⟩
    · show (_ + (_ - _)) + (0:Int) = _
      omega
    · show (0:Int) = max _ 0
      have h2' : (update_accrued_interest s d).accrued_interest.attos - amount.attos < 0 := h2
      omega
    · show _ + (_ - _) = _ + min _ 0
      have h2' : (update_accrued_interest s d).accrued_interest.attos - amount.attos < 0 := h2
      omega
    · exact le_refl 0
  · rw [if_neg h2]
    have h2' : ¬ (update_accrued_interest s d).accrued_interest.attos - amount.attos < 0 := h2
    refine ⟨rfl, ?_, ?_, ?_, ?_⟩
    · show (update_accrued_interest s d).principal.attos +
          ((update_accrued_interest s d).accrued_interest.attos - amount.attos) =
        (update_accrued_interest s d).principal.attos +
          (update_accrued_interest s d).accrued_interest.attos - amount.attos
      omega
    · show (update_accrued_interest s d).accrued_interest.attos - amount.attos =
        max ((update_accrued_interest s d).accrued_interest.attos - amount.attos) 0
      omega
    · show (update_accrued_interest s d).principal.attos =
        (update_accrued_interest s d).principal.attos +
          min ((update_accrued_interest s d).accrued_interest.attos - amount.attos) 0
      omega
    · show (0:Int) ≤ (update_accrued_interest s d).accrued_interest.attos - amount.attos
      omega

/-- C6: `call_money` fails (with "Contract is not active" and the state
untouched) exactly when status is not Active; on an Active contract it
accrues interest, returns the updated total due with due date
current_date + notice_period, marks the contract Called, and appends the
money-called entry. -/
theorem C6_call_money_spec (s : CallMoney) (d : Int) :
    ((∃ e, call_money s d = Except.error e) ↔ ¬ s.status = "Active") ∧
    (¬ s.status = "Active" → call_money s d = Except.error ("Contract is not active", s)) ∧
    (s.status = "Active" →
      call_money s d =
        Except.ok
          ((Decimal.add (update_accrued_interest s d).principal
              (update_accrued_interest s d).accrued_interest,
            d + s.notice_period),
          { update_accrued_interest s d with
            status := "Called"
            transaction_history :=
              (update_accrued_interest s d).transaction_history ++
                [LogEntry.moneyCalled (d + s.notice_period)] })) := by
  refine ⟨⟨?_, ?_⟩, ?_, ?_⟩
  · rintro ⟨e, he⟩ hA
    unfold call_money at he
    rw [if_pos hA] at he
    cases he
  · intro hA
    exact ⟨("Contract is not active", s), by unfold call_money; rw [if_neg hA]⟩
  · intro hA
    unfold call_money
    rw [if_neg hA]
  · intro hA
    unfold call_money
    rw [if_pos hA]
    rfl

/-- C7: every guarded operation validates before mutating anything: when
`call_money`, `apply_penalty`, `add_collateral` or `remove_collateral`
fails its assertion, the state carried by the panic is exactly the input
state — no field, and in particular no log entry, changed. -/
theorem C7_failure_atomicity (s : CallMoney) (d : Int) (c : Nat) :
    (∀ e, call_money s d = Except.error e → e.2 = s) ∧
    (∀ e, apply_penalty s d = Except.error e → e.2 = s) ∧
    (∀ e, add_collateral s c = Except.error e → e.2 = s) ∧
    (∀ e, remove_collateral s = Except.error e → e.2 = s) := by
  refine ⟨?_, ?_, ?_, ?_⟩
  · intro e he
    unfold call_money at he
    by_cases hA : s.status = "Active"
    · rw [if_pos hA] at he
      cases he
    · rw [if_neg hA] at he
      cases he
      rfl
  · intro e he
    rw [apply_penalty_eq_error s d] at he
    by_cases hC : s.status = "Called"
    · rw [if_pos hC] at he
      cases he
      rfl
    · rw [if_neg hC] at he
      cases he
      rfl
  · intro e he
    unfold add_collateral at he
    by_cases hN : s.collateral.isNone
    · rw [if_pos hN] at he
      cases he
    · rw [if_neg hN] at he
      cases he
      rfl
  · intro e he
    unfold remove_collateral at he
    by_cases hP : s.principal.attos = 0
    · rw [if_pos hP] at he
      cases hcol : s.collateral with
      | some v => rw [hcol] at he; cases he
      | none => rw [hcol] at he; cases he
    · rw [if_neg hP] at he
      cases he
      rfl

/-- C8 (amended): for every contract reachable from a successful
`instantiate_call_money` by successfully completed operations in which
every accrual-triggering call uses a current_date no earlier than the
stored last_interest_calculation_date, principal and accrued_interest are
nonnegative in the post-state. -/
theorem C8_amended_invariant (s : CallMoney) (h : Reaches s) :
    0 ≤ s.principal.attos ∧ 0 ≤ s.accrued_interest.attos :=
  ⟨(reaches_good s h).1, (reaches_good s h).2.1⟩

/-- Witness for C8 (amended) at the freshly instantiated scenario contract. -/
theorem C8_amended_invariant_witness :
    0 ≤ c1state.principal.attos ∧ 0 ≤ c1state.accrued_interest.attos :=
  C8_amended_invariant c1state
    (Reaches.init 0 1 ⟨1000 * Decimal.SCALE⟩ ⟨5 * 10 ^ 16⟩ 0 86400 0 ⟨10 ^ 17⟩ c1state
      (by decide))

/-- C8 counterexample: instantiating with start_date 100 and then running
the always-successful `update_accrued_interest` at current_date 0 — a
legal operation sequence under the claim, which quantifies over every
argument value — leaves accrued_interest strictly negative. -/
theorem C8_counterexample :
    instantiate_call_money 0 1 ⟨1000 * Decimal.SCALE⟩ ⟨5 * 10 ^ 16⟩ 100 0 0 ⟨10 ^ 17⟩ =
      Except.ok c8state ∧
    (update_accrued_interest c8state 0).accrued_interest.attos < 0 :=
  ⟨by decide, by decide⟩

/-- C9 counterexample: on the scenario contract, one successful
`repay(1050, 365*86400)` call grows the history by two entries (the inner
accrual entry plus its own), not by exactly one. -/
theorem C9_counterexample :
    ¬ ((repay c1state ⟨1050 * Decimal.SCALE⟩ (365 * 86400)).2.transaction_history.length =
        c1state.transaction_history.length + 1) := by
  decide

/-- C9 (amended): the history only ever grows by appending at the end:
update_accrued_interest and add_collateral append exactly one entry,
repay and a successful call_money append exactly two (the inner accrual
entry plus their own), remove_collateral appends one exactly when a
collateral was present, apply_penalty never completes successfully, and
every failing operation leaves the history unchanged. -/
theorem C9_amended_log_discipline (s : CallMoney) (amount : Decimal) (c : Nat) (d : Int) :
    ((update_accrued_interest s d).transaction_history =
      s.transaction_history ++ [LogEntry.interestUpdated (interest_of s d)]) ∧
    (∃ e2, (repay s amount d).2.transaction_history =
      s.transaction_history ++ [LogEntry.interestUpdated (interest_of s d), e2]) ∧
    (∀ r s1, call_money s d = Except.ok (r, s1) →
      s1.transaction_history =
        s.transaction_history ++
          [LogEntry.interestUpdated (interest_of s d), LogEntry.moneyCalled (d + s.notice_period)]) ∧
    (∀ s1, apply_penalty s d = Except.ok s1 → False) ∧
    (∀ s1, add_collateral s c = Except.ok s1 →
      s1.transaction_history = s.transaction_history ++ [LogEntry.collateralAdded]) ∧
    (∀ r s1, remove_collateral s = Except.ok (r, s1) →
      s1.transaction_history =
        s.transaction_history ++
          (if s.collateral.isSome then [LogEntry.collateralRemoved] else [])) ∧
    (∀ e, call_money s d = Except.error e → e.2.transaction_history = s.transaction_history) ∧
    (∀ e, apply_penalty s d = Except.error e → e.2.transaction_history = s.transaction_history) ∧
    (∀ e, add_collateral s c = Except.error e → e.2.transaction_history = s.transaction_history) ∧
    (∀ e, remove_collateral s = Except.error e → e.2.transaction_history = s.transaction_history) := by
  refine ⟨rfl, ?_, ?_, ?_, ?_, ?_, ?_, ?_, ?_, ?_⟩
  · by_cases hc : (Decimal.add (update_accrued_interest s d).principal
        (update_accrued_interest s d).accrued_interest).attos ≤ amount.attos
    · rw [repay_eq_full s amount d hc]
      exact ⟨LogEntry.loanFullyRepaid
          (Decimal.sub amount
            (Decimal.add (update_accrued_interest s d).principal
              (update_accrued_interest s d).accrued_interest)),
        List.append_assoc s.transaction_history
          [LogEntry.interestUpdated (interest_of s d)] _⟩
    · rw [repay_eq_part s amount d hc]
      by_cases h2 : (Decimal.sub (update_accrued_interest s d).accrued_interest amount).attos < 0
      · rw [if_pos h2]
        exact ⟨LogEntry.partRepayment amount,
          List.append_assoc s.transaction_history
            [LogEntry.interestUpdated (interest_of s d)] _⟩
      · rw [if_neg h2]
        exact ⟨LogEntry.partRepayment amount,
          List.append_assoc s.transaction_history
            [LogEntry.interestUpdated (interest_of s d)] _⟩
  · intro r s1 h
    unfold call_money at h
    by_cases hA : s.status = "Active"
    · rw [if_pos hA] at h
      injection h with h1
      injection h1 with h2 h3
      subst h3
      exact List.append_assoc s.transaction_history
        [LogEntry.interestUpdated (interest_of s d)] _
    · rw [if_neg hA] at h
      cases h
  · intro s1 h
    rw [apply_penalty_eq_error s d] at h
    cases h
  · intro s1 h
    unfold add_collateral at h
    by_cases hN : s.collateral.isNone
    · rw [if_pos hN] at h
      injection h with h1
      subst h1
      rfl
    · rw [if_neg hN] at h
      cases h
  · intro r s1 h
    unfold remove_collateral at h
    by_cases hP : s.principal.attos = 0
    · rw [if_pos hP] at h
      cases hcol : s.collateral with
      | some v =>
        rw [hcol] at h
        injection h with h1
        injection h1 with h2 h3
        subst h3
        simp [hcol]
      | none =>
        rw [hcol] at h
        injection h with h1
        injection h1 with h2 h3
        subst h3
        simp [hcol]
    · rw [if_neg hP] at h
      cases h
  · intro e he
    unfold call_money at he
    by_cases hA : s.status = "Active"
    · rw [if_pos hA] at he
      cases he
    · rw [if_neg hA] at he
      cases he
      rfl
  · intro e he
    rw [apply_penalty_eq_error s d] at he
    by_cases hC : s.status = "Called"
    · rw [if_pos hC] at he
      cases he
      rfl
    · rw [if_neg hC] at he
      cases he
      rfl
  · intro e he
    unfold add_collateral at he
    by_cases hN : s.collateral.isNone
    · rw [if_pos hN] at he
      cases he
    · rw [if_neg hN] at he
      cases he
      rfl
  · intro e he
    unfold remove_collateral at he
    by_cases hP : s.principal.attos = 0
    · rw [if_pos hP] at he
      cases hcol : s.collateral with
      | some v => rw [hcol] at he; cases he
      | none => rw [hcol] at he; cases he
    · rw [if_neg hP] at he
      cases he
      rfl

/-- Witness for C9 (amended): the accrual entry and the two entries a
successful call_money appends, on the scenario contract. -/
theorem C9_amended_log_discipline_witness :
    ((update_accrued_interest c1state 0).transaction_history =
      c1state.transaction_history ++ [LogEntry.interestUpdated (interest_of c1state 0)]) ∧
    (cCalled.transaction_history =
      c1state.transaction_history ++
        [LogEntry.interestUpdated (interest_of c1state 0), LogEntry.moneyCalled 86400]) := by
  refine ⟨(C9_amended_log_discipline c1state ⟨0⟩ 7 0).1, ?_⟩
  have h := (C9_amended_log_discipline c1state ⟨0⟩ 7 0).2.2.1
    (⟨1000 * Decimal.SCALE⟩, 86400) cCalled (by decide)
  simpa using h

/-- C10 counterexample: on a (reachable) state with accrued interest -10,
repaying the negative amount -5 (below the total due) leaves
accrued - amount = -5 < 0, so this run takes the clamp branch and
accrued_interest ends at 0 rather than growing by |amount| to -5: the
claim's universally quantified description of the partial branch is
false. -/
theorem C10_counterexample :
    ((-5 * Decimal.SCALE : Int) < 0) ∧
    ((-5 * Decimal.SCALE : Int) <
      (update_accrued_interest cNeg 0).principal.attos +
        (update_accrued_interest cNeg 0).accrued_interest.attos) ∧
    ((repay cNeg ⟨-5 * Decimal.SCALE⟩ 0).2.accrued_interest.attos = 0) ∧
    ¬ ((repay cNeg ⟨-5 * Decimal.SCALE⟩ 0).2.accrued_interest.attos =
        (update_accrued_interest cNeg 0).accrued_interest.attos + 5 * Decimal.SCALE) :=
  ⟨by decide, by decide, by decide, by decide⟩

/-- C10 (amended): repay enforces no precondition (it is total); a
negative amount strictly below the post-accrual total due takes the
partial branch, returns 0 and appends the partial-repayment entry, and —
provided the post-accrual accrued interest is nonnegative — grows
accrued_interest by exactly |amount| while leaving principal unchanged. -/
theorem C10_repay_unguarded (s : CallMoney) (amount : Decimal) (d : Int)
    (hneg : amount.attos < 0)
    (h : amount.attos <
        (update_accrued_interest s d).principal.attos +
          (update_accrued_interest s d).accrued_interest.attos) :
    (repay s amount d).1 = Decimal.ZERO ∧
    ((repay s amount d).2.transaction_history =
      s.transaction_history ++
        [LogEntry.interestUpdated (interest_of s d), LogEntry.partRepayment amount]) ∧
    (0 ≤ (update_accrued_interest s d).accrued_interest.attos →
      (repay s amount d).2.accrued_interest.attos =
        (update_accrued_interest s d).accrued_interest.attos + (-amount.attos) ∧
      (repay s amount d).2.principal = (update_accrued_interest s d).principal) := by
  have hc : ¬ (Decimal.add (update_accrued_interest s d).principal
      (update_accrued_interest s d).accrued_interest).attos ≤ amount.attos := by
    show ¬ _ + _ ≤ _
    omega
  rw [repay_eq_part s amount d hc]
  by_cases h2 : (Decimal.sub (update_accrued_interest s d).accrued_interest amount).attos < 0
  · have h2' : (update_accrued_interest s d).accrued_interest.attos - amount.attos < 0 := h2
    rw [if_pos h2]
    refine ⟨rfl, List.append_assoc s.transaction_history
      [LogEntry.interestUpdated (interest_of s d)] _, ?_⟩
    intro ha0
    omega
  · have h2' : ¬ ((update_accrued_interest s d).accrued_interest.attos - amount.attos < 0) := h2
    rw [if_neg h2]
    refine ⟨rfl, List.append_assoc s.transaction_history
      [LogEntry.interestUpdated (interest_of s d)] _, ?_⟩
    intro ha0
    constructor
    · show (update_accrued_interest s d).accrued_interest.attos - amount.attos = _
      omega
    · rfl

/-- Witness for C10 (amended): a negative repayment on the scenario
contract grows the accrued interest by |amount|. -/
theorem C10_repay_unguarded_witness :
    ((Decimal.mk (-5 * Decimal.SCALE)).attos < 0) ∧
    ((repay c1state ⟨-5 * Decimal.SCALE⟩ 0).1 = Decimal.ZERO) ∧
    ((repay c1state ⟨-5 * Decimal.SCALE⟩ 0).2.accrued_interest.attos = 5 * Decimal.SCALE) := by
  refine ⟨by decide,
    (C10_repay_unguarded c1state ⟨-5 * Decimal.SCALE⟩ 0 (by decide) (by decide)).1, ?_⟩
  have h := ((C10_repay_unguarded c1state ⟨-5 * Decimal.SCALE⟩ 0 (by decide) (by decide)).2.2
    (by decide)).1
  rw [h]
  decide

/-- C1: the code's behaviour on the spec's concrete scenario.  The `days`
variable of `update_accrued_interest` holds the raw seconds difference
(31,536,000), not 365, so a year of accrual on principal 1000 at rate
0.05 yields accrued interest 4,320,000 rather than 50, and the subsequent
`repay(1050)` is a partial payment that leaves the contract Active with
principal 1000 and accrued interest 4,318,950 — contradicting the spec's
expected full repayment. -/
theorem C1_code_behavior :
    (instantiate_call_money 0 1 ⟨1000 * Decimal.SCALE⟩ ⟨5 * 10 ^ 16⟩ 0 86400 0 ⟨10 ^ 17⟩ =
      Except.ok c1state) ∧
    ((update_accrued_interest c1state (365 * 86400)).accrued_interest.attos =
      4320000 * Decimal.SCALE) ∧
    ((repay (update_accrued_interest c1state (365 * 86400)) ⟨1050 * Decimal.SCALE⟩
        (365 * 86400)).1 = Decimal.ZERO) ∧
    ((repay (update_accrued_interest c1state (365 * 86400)) ⟨1050 * Decimal.SCALE⟩
        (365 * 86400)).2.status = "Active") ∧
    ((repay (update_accrued_interest c1state (365 * 86400)) ⟨1050 * Decimal.SCALE⟩
        (365 * 86400)).2.principal.attos = 1000 * Decimal.SCALE) ∧
    ((repay (update_accrued_interest c1state (365 * 86400)) ⟨1050 * Decimal.SCALE⟩
        (365 * 86400)).2.accrued_interest.attos = 4318950 * Decimal.SCALE) :=
  ⟨by decide, by decide, by decide, by decide, by decide, by decide⟩

/-- Witness for C4 on the scenario contract: paying exactly the total due
settles the loan. -/
theorem C4_repay_full_settlement_witness :
    ((update_accrued_interest c1state 0).principal.attos +
      (update_accrued_interest c1state 0).accrued_interest.attos ≤
        (Decimal.mk (1000 * Decimal.SCALE)).attos) ∧
    (repay c1state ⟨1000 * Decimal.SCALE⟩ 0).2.status = "Repaid" :=
  ⟨by decide, (C4_repay_full_settlement c1state ⟨1000 * Decimal.SCALE⟩ 0 (by decide)).2.1⟩

/-- Witness for C5 on the scenario contract: a 500 payment against a 1000
total due returns no excess. -/
theorem C5_repay_partial_payment_witness :
    ((0:Int) ≤ (Decimal.mk (500 * Decimal.SCALE)).attos) ∧
    ((Decimal.mk (500 * Decimal.SCALE)).attos <
      (update_accrued_interest c1state 0).principal.attos +
        (update_accrued_interest c1state 0).accrued_interest.attos) ∧
    (repay c1state ⟨500 * Decimal.SCALE⟩ 0).1 = Decimal.ZERO :=
  ⟨by decide, by decide,
    (C5_repay_partial_payment c1state ⟨500 * Decimal.SCALE⟩ 0 (by decide) (by decide)).1⟩

/-- Witness for C6: calling the money on the Active scenario contract
succeeds with total due 1000 and due date 86400. -/
theorem C6_call_money_spec_witness :
    c1state.status = "Active" ∧
    call_money c1state 0 =
      Except.ok ((Decimal.mk (1000 * Decimal.SCALE), 86400), cCalled) := by
  refine ⟨rfl, ?_⟩
  have h := (C6_call_money_spec c1state 0).2.2 rfl
  rw [h]
  decide

/-- Witness for C7: two concrete failing operations carry back exactly the
input state. -/
theorem C7_failure_atomicity_witness :
    (call_money sErr 0 = Except.error ("Contract is not active", sErr)) ∧
    (remove_collateral sErr =
      Except.error ("Loan must be fully repaid to remove collateral", sErr)) ∧
    (("Contract is not active", sErr).2 = sErr) ∧
    (("Loan must be fully repaid to remove collateral", sErr).2 = sErr) :=
  ⟨by decide, by decide,
    (C7_failure_atomicity sErr 0 9).1 _ (by decide),
    (C7_failure_atomicity sErr 0 9).2.2.2 _ (by decide)⟩
